import Mathlib

/-!
Shallow embedding of the two source files of the repository:

* `pkg/microservices/go-micro/v4/grpc-client/client.go` — the singleton
  gRPC client bootstrapper (`newClient`, `attemptGettingRegisteredServices`,
  `getRegisteredServices`, `setupClient`, accessors).
* `projects/customers-manager/internal/customer/adapters/inbound/lambda-handler.go`
  — the AWS Lambda HTTP dispatcher and its route handlers.

External collaborators (the Consul registry, the go-micro transport library,
the JSON codec, `strconv.ParseInt`, and the out-of-scope `types`/`utils`
packages) are modelled as abstract inputs: their result on each call is a
parameter of the embedded function, exactly at the call sites where the Go
code consults them.  Go `nil` pointers/interfaces are `Option`, Go
`(T, error)` results are `T × Option String` or `Except String T`.
Non-terminating loops are modelled with a fuel parameter: `none` means the
loop did not exit within `fuel` iterations.
-/

namespace GrpcClient

/-- Node of a registry service record (`registry.Node`): instance id,
address, and a string-to-string metadata map. -/
structure Node where
  id : String
  address : String
  metadata : List (String × String)
deriving DecidableEq, Repr

/-- Registry service record (`registry.Service`): name plus node list. -/
structure Service where
  name : String
  nodes : List Node
deriving DecidableEq, Repr

/-- Abstract transport object (`gmclient.Client`, an interface value built by
`grpc.NewClient`).  Its internals are out of scope; only its identity
matters to the claims. -/
structure GmClient where
  tag : Nat
deriving DecidableEq, Repr

/-- The `client` struct of client.go: a transport `c` and the registered
services `rs`.  A Go zero-value (nil) field is `none` / `[]`. -/
structure Client where
  c : Option GmClient
  rs : List Service
deriving DecidableEq, Repr

/-- Configuration consumed by the client (`defs.Config`): the Consul address
and the target server name, the only fields the code reads. -/
structure Config where
  consulAddress : String
  serverName : String
deriving DecidableEq, Repr

/-- The `grpc.NewClient(gmclient.Registry(consulRegistry))` call: an external
transport factory.  In the source it is a plain constructor that cannot
fail; we model the resulting opaque transport object. -/
def grpcNewClient (_config : Config) : GmClient :=
  { tag := 0 }

/-- Translation of `setupClient` (client.go lines 110-118): builds the Consul
registry handle and the gRPC transport and returns `(c, nil)` — the error
result is unconditionally `nil` in the source. -/
def setupClient (config : Config) : Except String GmClient :=
  Except.ok (grpcNewClient config)

/-- Translation of `getRegisteredServices` (client.go lines 79-108).  The
call `consulRegistry.GetService(config.GetServerName())` is the external
registry collaborator; its outcome is the `regResult` parameter.  On a
registry error the function wraps it; on an empty list it fails with a
"no instances" error; otherwise it returns the list unchanged (the `for`
loop over services only prints). -/
def getRegisteredServices (serverName : String)
    (regResult : Except String (List Service)) : Except String (List Service) :=
  match regResult with
  | Except.error e =>
      Except.error ("error retrieving service " ++ serverName ++ " from Consul: " ++ e)
  | Except.ok services =>
      if services.length = 0 then
        Except.error ("no instances found for service " ++ serverName)
      else
        Except.ok services

/-- The handle published by the discovery loop on success (client.go lines
68-72): `instance = &client{rs: regSrv}` — the transport field is left at
its zero value (nil). -/
def publishDiscovered (regSrv : List Service) : Client :=
  { c := none, rs := regSrv }

/-- One iteration of the body of `attemptGettingRegisteredServices` acting on
the shared `instance` pointer: on lookup failure the instance is left
untouched (the loop sleeps and retries); on success the instance is
replaced wholesale by `&client{rs: regSrv}`. -/
def refreshStep (prev : Option Client) (serverName : String)
    (regResult : Except String (List Service)) : Option Client :=
  match getRegisteredServices serverName regResult with
  | Except.error _ => prev
  | Except.ok regSrv => some (publishDiscovered regSrv)

/-- Translation of the loop of `attemptGettingRegisteredServices` (client.go
lines 57-77) run against a finite prefix of the registry's response
sequence.  Returns `some (handle, k)` when the loop publishes `handle` and
breaks after `k` lookup calls, and `none` when every response in the prefix
failed (the loop is still retrying).  Responses after the first success are
never consumed — the loop breaks. -/
def attemptGettingRegisteredServices (serverName : String) :
    List (Except String (List Service)) → Option (Client × Nat)
  | [] => none
  | r :: rest =>
      match getRegisteredServices serverName r with
      | Except.error _ =>
          match attemptGettingRegisteredServices serverName rest with
          | none => none
          | some (h, k) => some (h, k + 1)
      | Except.ok regSrv => some (publishDiscovered regSrv, 1)

/-- The process-wide shared state of client.go: the `instance` pointer, the
`once` guard flag, the recorded `initError`, and whether the background
discovery goroutine was launched. -/
structure SharedState where
  inst : Option Client
  onceDone : Bool
  initError : Option String
  bgLaunched : Bool
deriving DecidableEq, Repr

/-- Shared state at process start: nil instance, guard not yet fired, no
error, no background task. -/
def initialSharedState : SharedState :=
  { inst := none, onceDone := false, initError := none, bgLaunched := false }

/-- Body of the `once.Do` closure in `newClient` (client.go lines 30-41),
parameterized by the outcome of the transport setup.  On error it records
`initError` wrapped as in the source and returns — no instance is
published and no background goroutine starts.  On success it publishes
`&client{c: clt}` (no records yet) and launches the discovery goroutine. -/
def onceBody (setupResult : Except String GmClient) (s : SharedState) : SharedState :=
  match setupResult with
  | Except.error err =>
      { s with initError := some ("error setting up gRPC client: " ++ err) }
  | Except.ok clt =>
      { s with inst := some { c := some clt, rs := [] }, bgLaunched := true }

/-- The `once.Do` guard: the body runs only if the guard has not fired yet;
either way the guard is marked done for this process. -/
def onceDo (setupResult : Except String GmClient) (s : SharedState) : SharedState :=
  if s.onceDone then s
  else { onceBody setupResult s with onceDone := true }

/-- Translation of the wait loop of `newClient` (client.go lines 44-54).
`traj t` is the value of the shared `instance` pointer at the t-th poll
(it can be changed concurrently by the discovery goroutine); `fuel` bounds
the number of polls.  The loop breaks as soon as it observes a non-nil
instance and the function returns `(instance, nil)` — the error result is
unconditionally `nil` in the source, so the second component is always
`none` when the loop exits.  `none` overall means the loop has not exited
within `fuel` polls. -/
def waitLoop (traj : Nat → Option Client) : Nat → Nat → Option (Client × Option String)
  | 0, _ => none
  | fuel + 1, t =>
      match traj t with
      | some h => some (h, none)
      | none => waitLoop traj fuel (t + 1)

/-- Never-returning first call: after `once.Do` with the given setup outcome
on a fresh process, the wait loop does not exit within any number of polls.
When setup fails the once body leaves `inst = none` and launches no
background goroutine, so the constant trajectory is exact. -/
def firstCallNeverReturns (setupResult : Except String GmClient) : Prop :=
  ∀ fuel t,
    waitLoop (fun _ => (onceDo setupResult initialSharedState).inst) fuel t = none

/-- Translation of `GetServerName` (client.go lines 125-127): returns
`c.rs[0].Name`.  On an empty `rs` the Go code panics (index out of range on
the nil slice); the panic is modelled as `none`. -/
def GetServerName (cl : Client) : Option String :=
  match cl.rs with
  | [] => none
  | s :: _ => some s.name

/-- Translation of `GetClient` (client.go lines 121-123): returns the stored
transport field. -/
def GetClient (cl : Client) : Option GmClient :=
  cl.c

/-- Guard state for the exactly-once property, instrumented with a counter of
how many times the setup sequence has executed. -/
structure OnceState where
  done : Bool
  setupCount : Nat
deriving DecidableEq, Repr

/-- One caller passing through the `once.Do` guard: the setup sequence runs
(and is counted) only when the guard has not fired yet.  `sync.Once`
serializes the body and blocks later callers until it finishes, so any
concurrent schedule of callers is equivalent to some sequential order of
guard acquisitions, which this function folds over. -/
def onceDoCounted (s : OnceState) : OnceState :=
  if s.done then s
  else { done := true, setupCount := s.setupCount + 1 }

/-- N successive callers of the acquire operation, each passing through the
guard. -/
def runAcquires : Nat → OnceState → OnceState
  | 0, s => s
  | n + 1, s => runAcquires n (onceDoCounted s)

end GrpcClient

namespace Lambda

/-- Incoming gateway event (`events.APIGatewayProxyRequest`), restricted to
the fields the handler reads: HTTP method, resource pattern, path
parameters, and raw body. -/
structure APIGatewayProxyRequest where
  httpMethod : String
  resource : String
  pathParameters : List (String × String)
  body : String
deriving DecidableEq, Repr

/-- Outgoing envelope (`events.APIGatewayProxyResponse`): status code,
headers, body. -/
structure APIGatewayProxyResponse where
  statusCode : Nat
  headers : List (String × String)
  body : String
deriving DecidableEq, Repr

/-- Go map access `request.PathParameters["id"]`: the zero value `""` when
the key is absent. -/
def lookupParam (ps : List (String × String)) (k : String) : String :=
  match ps.find? (fun p => p.1 = k) with
  | some p => p.2
  | none => ""

/-- An API error as surfaced by the out-of-scope `types` package: the body
text produced by `apiErr.Error()` lives behind the abstract `newAPIError`
collaborator in `Env`. -/
structure ApiError where
  msg : String
deriving DecidableEq, Repr

/-- Error codes of the `types` package used by the handler. -/
inductive ErrCode
  | errInternal
  | errInvalidInput
  | errValidation
deriving DecidableEq, Repr

/-- Customer transport/domain value.  Its JSON shape is out of scope; only
the `ID` field is touched by the handler (`customer.ID = ID` in
UpdateCustomer), the rest is an opaque payload. -/
structure Customer where
  id : Int
  payload : String
deriving DecidableEq, Repr

/-- KPI value returned by the KPI use case; opaque to the handler. -/
structure KPI where
  payload : String
deriving DecidableEq, Repr

/-- Outcomes of every external collaborator the handler consults, one field
per call site kind: `strconv.ParseInt`, `utils.ValidateID`,
`types.NewError`/`types.NewAPIError`, the use cases behind
`ports.UseCases`, `json.Unmarshal`/`json.Marshal` composed with the
transport converters, and the local `validateRequest` helper.  All are
black boxes per the spec; the handler only branches on error vs success
and forwards their outputs. -/
structure Env where
  parseInt64 : String → Except String Int
  validateID : Int → Option ApiError
  newError : ErrCode → String → String → ApiError
  newAPIError : ApiError → String × Nat
  getCustomers : Except ApiError (List Customer)
  getCustomerByID : Int → Except ApiError Customer
  createCustomer : Customer → Option ApiError
  updateCustomer : Customer → Option ApiError
  deleteCustomer : Int → Option ApiError
  getKPI : Except ApiError KPI
  unmarshalCustomer : String → Except String Customer
  validateRequest : Customer → Option ApiError
  marshalCustomers : List Customer → Except String String
  marshalCustomer : Customer → Except String String
  marshalKPI : KPI → Except String String

/-- The error-response pattern repeated at every failure site of the
handler: `apiErr, status := types.NewAPIError(err)` followed by a response
whose body is `apiErr.Error()` and whose status is `status`, returned with
a nil Go error. -/
def errorResponse (env : Env) (err : ApiError) : APIGatewayProxyResponse :=
  { statusCode := (env.newAPIError err).2, headers := [], body := (env.newAPIError err).1 }

/-- Translation of `GetCustomers` (lambda-handler.go lines 65-101). -/
def GetCustomers (env : Env) : APIGatewayProxyResponse × Option String :=
  match env.getCustomers with
  | Except.error err => (errorResponse env err, none)
  | Except.ok customers =>
      match env.marshalCustomers customers with
      | Except.error e =>
          (errorResponse env (env.newError ErrCode.errInternal "Error marshalling response" e),
            none)
      | Except.ok body =>
          ({ statusCode := 200, headers := [("Content-Type", "application/json")],
             body := body }, none)

/-- Translation of `GetCustomer` (lambda-handler.go lines 103-162): parse
the id path parameter, validate it, call the use case, marshal the
response; each failure is encoded as a status/body response with nil
error. -/
def GetCustomer (env : Env) (request : APIGatewayProxyRequest) :
    APIGatewayProxyResponse × Option String :=
  match env.parseInt64 (lookupParam request.pathParameters "id") with
  | Except.error e =>
      (errorResponse env (env.newError ErrCode.errInvalidInput "invalid customer ID format" e),
        none)
  | Except.ok id =>
      match env.validateID id with
      | some err => (errorResponse env err, none)
      | none =>
          match env.getCustomerByID id with
          | Except.error err => (errorResponse env err, none)
          | Except.ok customer =>
              match env.marshalCustomer customer with
              | Except.error e =>
                  (errorResponse env
                      (env.newError ErrCode.errInternal "Error marshalling response" e), none)
              | Except.ok body =>
                  ({ statusCode := 200,
                     headers := [("Content-Type", "application/json")], body := body }, none)

/-- Decides `strings.Contains(s, sub)`: `pat` starts the char list. -/
def strStarts : List Char → List Char → Bool
  | [], _ => true
  | _ :: _, [] => false
  | a :: as, b :: bs => a = b && strStarts as bs

/-- Whether `pat` occurs contiguously inside the char list. -/
def strHas (pat : List Char) : List Char → Bool
  | [] => strStarts pat []
  | c :: cs => strStarts pat (c :: cs) || strHas pat cs

/-- Go's `strings.Contains(s, sub)`. -/
def goContains (s sub : String) : Bool :=
  strHas sub.data s.data

/-- The unmarshal-error message classification of `CreateCustomer`
(lambda-handler.go lines 167-180): a chain of `strings.Contains` checks on
the error text. -/
def classifyUnmarshalError (errStr : String) : String :=
  if goContains errStr "Email\x27 failed on the \x27required\x27 tag" then
    "invalid email format"
  else if goContains errStr "Age\x27 failed on the \x27required\x27 tag" then
    "invalid age"
  else if goContains errStr "failed on the \x27required\x27 tag" then
    "missing required field"
  else if goContains errStr "cannot unmarshal" then
    "invalid data type"
  else
    "request cannot be nil"

/-- Translation of `CreateCustomer` (lambda-handler.go lines 164-217). -/
def CreateCustomer (env : Env) (request : APIGatewayProxyRequest) :
    APIGatewayProxyResponse × Option String :=
  match env.unmarshalCustomer request.body with
  | Except.error errStr =>
      (errorResponse env
          (env.newError ErrCode.errValidation (classifyUnmarshalError errStr) errStr), none)
  | Except.ok req =>
      match env.validateRequest req with
      | some err => (errorResponse env err, none)
      | none =>
          match env.createCustomer req with
          | some err => (errorResponse env err, none)
          | none =>
              ({ statusCode := 201,
                 headers := [("Content-Type", "application/json")], body := "" }, none)

/-- Translation of `UpdateCustomer` (lambda-handler.go lines 219-283).  The
parsed path id overrides the id of the unmarshalled customer before the
use-case call. -/
def UpdateCustomer (env : Env) (request : APIGatewayProxyRequest) :
    APIGatewayProxyResponse × Option String :=
  match env.parseInt64 (lookupParam request.pathParameters "id") with
  | Except.error e =>
      (errorResponse env (env.newError ErrCode.errInvalidInput "invalid customer ID format" e),
        none)
  | Except.ok id =>
      match env.validateID id with
      | some err => (errorResponse env err, none)
      | none =>
          match env.unmarshalCustomer request.body with
          | Except.error e =>
              (errorResponse env (env.newError ErrCode.errValidation "invalid request body" e),
                none)
          | Except.ok req =>
              match env.validateRequest req with
              | some err => (errorResponse env err, none)
              | none =>
                  match env.updateCustomer { req with id := id } with
                  | some err => (errorResponse env err, none)
                  | none =>
                      ({ statusCode := 200,
                         headers := [("Content-Type", "application/json")], body := "" }, none)

/-- Translation of `DeleteCustomer` (lambda-handler.go lines 285-323). -/
def DeleteCustomer (env : Env) (request : APIGatewayProxyRequest) :
    APIGatewayProxyResponse × Option String :=
  match env.parseInt64 (lookupParam request.pathParameters "id") with
  | Except.error e =>
      (errorResponse env (env.newError ErrCode.errInvalidInput "invalid customer ID format" e),
        none)
  | Except.ok id =>
      match env.validateID id with
      | some err => (errorResponse env err, none)
      | none =>
          match env.deleteCustomer id with
          | some err => (errorResponse env err, none)
          | none =>
              ({ statusCode := 204,
                 headers := [("Content-Type", "application/json")], body := "" }, none)

/-- Translation of `GetKPI` (lambda-handler.go lines 325-359). -/
def GetKPI (env : Env) : APIGatewayProxyResponse × Option String :=
  match env.getKPI with
  | Except.error err => (errorResponse env err, none)
  | Except.ok kpi =>
      match env.marshalKPI kpi with
      | Except.error e =>
          (errorResponse env (env.newError ErrCode.errInternal "Error marshalling response" e),
            none)
      | Except.ok body =>
          ({ statusCode := 200, headers := [("Content-Type", "application/json")],
             body := body }, none)

/-- Translation of the dispatch `HandleRequest` (lambda-handler.go lines
43-63): route on method and resource pattern; unknown routes answer 404
"Not Found" with nil error. -/
def HandleRequest (env : Env) (request : APIGatewayProxyRequest) :
    APIGatewayProxyResponse × Option String :=
  if request.httpMethod = "GET" ∧ request.resource = "/customers" then
    GetCustomers env
  else if request.httpMethod = "GET" ∧ request.resource = "/customers/\x7bid\x7d" then
    GetCustomer env request
  else if request.httpMethod = "POST" ∧ request.resource = "/customers" then
    CreateCustomer env request
  else if request.httpMethod = "PUT" ∧ request.resource = "/customers/\x7bid\x7d" then
    UpdateCustomer env request
  else if request.httpMethod = "DELETE" ∧ request.resource = "/customers/\x7bid\x7d" then
    DeleteCustomer env request
  else if request.httpMethod = "GET" ∧ request.resource = "/customers/kpi" then
    GetKPI env
  else
    ({ statusCode := 404, headers := [], body := "Not Found" }, none)

end Lambda

namespace GrpcClient

/-- Concrete service record used to evaluate the embedding on the spec's
scenario (service "orders" with one node). -/
def svcOrders : Service :=
  { name := "orders",
    nodes := [{ id := "n1", address := "10.0.0.5", metadata := [("port", "9090")] }] }

/-- Concrete client handle as published by a successful setup. -/
def cliA : Client :=
  { c := some { tag := 0 }, rs := [] }

/-- A registry response sequence in which every lookup fails: errors on even
polls, empty lists on odd polls. -/
def allFailResponses (i : Nat) : Except String (List Service) :=
  if i % 2 = 0 then Except.error "down" else Except.ok []

theorem waitLoop_stays_none (traj : Nat → Option Client)
    (hnone : ∀ t, traj t = none) :
    ∀ fuel t, waitLoop traj fuel t = none := by
  intro fuel
  induction fuel with
  | zero => intro t; rfl
  | succ n ih =>
      intro t
      rw [waitLoop, hnone t]
      exact ih (t + 1)

/-- C1, counterexample.  At the concrete setup failure "boom": the once body
records `initError = some "error setting up gRPC client: boom"`, but it
launches no background task, the shared instance stays nil, and the wait
loop of `newClient` does not exit within any number of polls — so the very
first call never returns, and in particular never surfaces the recorded
error, contrary to the claim. -/
theorem newClient_setupFailure_blocks_cex :
    (onceDo (Except.error "boom") initialSharedState).initError
        = some "error setting up gRPC client: boom"
    ∧ (onceDo (Except.error "boom") initialSharedState).bgLaunched = false
    ∧ firstCallNeverReturns (Except.error "boom") := by
  refine ⟨rfl, rfl, ?_⟩
  intro fuel t
  exact waitLoop_stays_none (fun _ => (onceDo (Except.error "boom") initialSharedState).inst)
    (fun _ => rfl) fuel t

/-- C1, amended.  If transport setup fails during the one-time
initialization, the error is recorded as a permanent initialization
failure (`initError` is set and the once guard never reruns the body), but
`newClient` never consults it: no background task is launched, the shared
instance stays nil, and every call — the first and every later one —
blocks forever in the readiness wait loop, so the recorded error is never
surfaced to any caller. -/
theorem newClient_setupFailure_never_surfaced (e : String) :
    (onceDo (Except.error e) initialSharedState).initError
        = some ("error setting up gRPC client: " ++ e)
    ∧ (onceDo (Except.error e) initialSharedState).bgLaunched = false
    ∧ firstCallNeverReturns (Except.error e)
    ∧ ∀ laterSetup fuel t,
        waitLoop
          (fun _ => (onceDo laterSetup (onceDo (Except.error e) initialSharedState)).inst)
          fuel t = none := by
  refine ⟨rfl, rfl, ?_, ?_⟩
  · intro fuel t
    exact waitLoop_stays_none _ (fun _ => rfl) fuel t
  · intro laterSetup fuel t
    exact waitLoop_stays_none _ (fun _ => rfl) fuel t

/-- C2: if the registry lookup first succeeds with a non-empty record list
after M failed attempts, the discovery loop publishes a handle containing
exactly those records, breaks after M+1 lookup calls, and never consumes
any response after the first success. -/
theorem discovery_publishes_first_success (serverName : String)
    (failed : List (Except String (List Service)))
    (hfail : ∀ r ∈ failed, ∃ e, getRegisteredServices serverName r = Except.error e)
    (recs : List Service) (hne : recs ≠ [])
    (rest : List (Except String (List Service))) :
    attemptGettingRegisteredServices serverName (failed ++ Except.ok recs :: rest)
      = some (publishDiscovered recs, failed.length + 1) := by
  induction failed with
  | nil =>
      simp [attemptGettingRegisteredServices, getRegisteredServices,
        List.length_eq_zero, hne]
  | cons r rs ih =>
      obtain ⟨e, he⟩ := hfail r (List.mem_cons_self r rs)
      have hrest := ih (fun x hx => hfail x (List.mem_cons_of_mem r hx))
      simp [attemptGettingRegisteredServices, he, hrest]

theorem discovery_publishes_first_success_witness :
    attemptGettingRegisteredServices "orders"
        [Except.error "down", Except.ok [], Except.ok [svcOrders], Except.ok []]
      = some (publishDiscovered [svcOrders], 3) := by
  have h := discovery_publishes_first_success "orders"
    [Except.error "down", Except.ok []]
    (by
      intro r hr
      simp only [List.mem_cons, List.not_mem_nil, or_false] at hr
      rcases hr with rfl | rfl
      · exact ⟨_, rfl⟩
      · exact ⟨_, rfl⟩)
    [svcOrders] (by simp) [Except.ok []]
  simpa using h

/-- C3: on a successful discovery the background refresh replaces the shared
handle wholesale: whatever the previous instance was — in particular one
holding the transport set at initialization — the new handle carries only
the discovered records and a nil transport. -/
theorem refresh_replaces_wholesale (prev : Option Client) (serverName : String)
    (recs : List Service) (hne : recs ≠ []) :
    refreshStep prev serverName (Except.ok recs) = some { c := none, rs := recs } := by
  simp [refreshStep, getRegisteredServices, publishDiscovered, List.length_eq_zero, hne]

theorem refresh_replaces_wholesale_witness :
    refreshStep (some { c := some { tag := 7 }, rs := [] }) "orders"
        (Except.ok [svcOrders])
      = some { c := none, rs := [svcOrders] } :=
  refresh_replaces_wholesale (some { c := some { tag := 7 }, rs := [] }) "orders"
    [svcOrders] (by simp)

/-- C4: `getRegisteredServices` succeeds exactly when the registry
collaborator returned a non-empty record list (it fails on a registry
error or an empty list), and on every non-empty list it returns that list
unchanged. -/
theorem getRegisteredServices_ok_iff (serverName : String)
    (regResult : Except String (List Service)) :
    ((∃ l, getRegisteredServices serverName regResult = Except.ok l) ↔
        (∃ l, regResult = Except.ok l ∧ l ≠ []))
    ∧ ∀ l, l ≠ [] → regResult = Except.ok l →
        getRegisteredServices serverName regResult = Except.ok l := by
  constructor
  · constructor
    · rintro ⟨l, hl⟩
      cases regResult with
      | error e => simp [getRegisteredServices] at hl
      | ok services =>
          by_cases h : services.length = 0
          · simp [getRegisteredServices, h] at hl
          · exact ⟨services, rfl, by simpa [List.length_eq_zero] using h⟩
    · rintro ⟨l, rfl, hne⟩
      exact ⟨l, by simp [getRegisteredServices, List.length_eq_zero, hne]⟩
  · rintro l hne rfl
    simp [getRegisteredServices, List.length_eq_zero, hne]

theorem getRegisteredServices_ok_iff_witness :
    getRegisteredServices "orders" (Except.ok [svcOrders]) = Except.ok [svcOrders] :=
  (getRegisteredServices_ok_iff "orders" (Except.ok [svcOrders])).2
    [svcOrders] (by simp) rfl

/-- C5: if every registry response in the sequence fails (an error or an
empty list), then after any number of iterations the discovery loop has
not terminated and no handle has been published — in particular no handle
with a non-empty record list ever reaches the shared state. -/
theorem discovery_all_failures_never_publishes (serverName : String) :
    ∀ (n : Nat) (responses : Nat → Except String (List Service)),
      (∀ i, (∃ e, responses i = Except.error e) ∨ responses i = Except.ok []) →
      attemptGettingRegisteredServices serverName
          (List.ofFn (fun i : Fin n => responses i.val)) = none := by
  intro n
  induction n with
  | zero => intro responses _; rfl
  | succ m ih =>
      intro responses hfail
      have h0 : ∃ e, getRegisteredServices serverName (responses 0) = Except.error e := by
        rcases hfail 0 with ⟨e, he⟩ | he
        · exact ⟨"error retrieving service " ++ serverName ++ " from Consul: " ++ e,
            by simp [getRegisteredServices, he]⟩
        · exact ⟨"no instances found for service " ++ serverName,
            by simp [getRegisteredServices, he]⟩
      obtain ⟨e, he⟩ := h0
      have hrest := ih (fun k => responses (k + 1)) (fun k => hfail (k + 1))
      rw [List.ofFn_succ]
      simp only [Fin.val_succ, Fin.val_zero] at *
      simp [attemptGettingRegisteredServices, he, hrest]

theorem discovery_all_failures_never_publishes_witness :
    attemptGettingRegisteredServices "orders"
        (List.ofFn (fun i : Fin 3 => allFailResponses i.val)) = none := by
  refine discovery_all_failures_never_publishes "orders" 3 allFailResponses ?_
  intro i
  by_cases h : i % 2 = 0
  · exact Or.inl ⟨"down", by simp [allFailResponses, h]⟩
  · exact Or.inr (by simp [allFailResponses, h])

/-- C6: the wait loop of `newClient` exits only after observing a published
non-nil instance, and when it exits it returns that current handle with a
nil error; and if the instance never becomes non-nil, the loop never exits
within any number of polls — there is no timeout. -/
theorem newClient_wait_returns_ready (traj : Nat → Option Client) :
    (∀ fuel t h e, waitLoop traj fuel t = some (h, e) →
        e = none ∧ ∃ t2, t ≤ t2 ∧ traj t2 = some h)
    ∧ ((∀ t, traj t = none) → ∀ fuel t, waitLoop traj fuel t = none) := by
  constructor
  · intro fuel
    induction fuel with
    | zero => intro t h e hw; exact absurd hw (by simp [waitLoop])
    | succ n ih =>
        intro t h e hw
        rw [waitLoop] at hw
        cases hh : traj t with
        | some h2 =>
            rw [hh] at hw
            simp only [Option.some.injEq, Prod.mk.injEq] at hw
            obtain ⟨rfl, rfl⟩ := hw
            exact ⟨rfl, t, le_refl t, hh⟩
        | none =>
            rw [hh] at hw
            obtain ⟨he2, t2, ht2, htraj⟩ := ih (t + 1) h e hw
            exact ⟨he2, t2, by omega, htraj⟩
  · exact waitLoop_stays_none traj

theorem newClient_wait_returns_ready_witness :
    (none : Option String) = none
    ∧ ∃ t2, 0 ≤ t2 ∧ (fun _ : Nat => some cliA) t2 = some cliA :=
  (newClient_wait_returns_ready (fun _ => some cliA)).1 1 0 cliA none rfl

/-- C7: on a handle with at least one discovered record, `GetServerName`
returns the name of the first record; on a handle with no records the Go
code indexes an empty slice and panics — there is no value to return,
modelled as `none`. -/
theorem GetServerName_spec (cl : Client) :
    (∀ s rest, cl.rs = s :: rest → GetServerName cl = some s.name)
    ∧ (cl.rs = [] → GetServerName cl = none) := by
  constructor
  · intro s rest h
    simp [GetServerName, h]
  · intro h
    simp [GetServerName, h]

theorem GetServerName_spec_witness :
    GetServerName { c := none, rs := [svcOrders] } = some "orders" := by
  simpa using (GetServerName_spec { c := none, rs := [svcOrders] }).1 svcOrders [] rfl

theorem runAcquires_of_done (m : Nat) :
    ∀ s : OnceState, s.done = true → runAcquires m s = s := by
  induction m with
  | zero => intro s _; rfl
  | succ k ih =>
      intro s h
      have hfix : onceDoCounted s = s := by simp [onceDoCounted, h]
      rw [runAcquires, hfix]
      exact ih s h

/-- C8: for any number N ≥ 2 of callers of the acquire operation passing
through the once guard (in whatever order the guard serializes them), the
instrumented setup sequence executes exactly once: the counter is 1
afterwards. -/
theorem setup_executes_once (n : Nat) (h : 2 ≤ n) :
    (runAcquires n { done := false, setupCount := 0 }).setupCount = 1 := by
  obtain ⟨m, rfl⟩ : ∃ m, n = m + 1 := ⟨n - 1, by omega⟩
  rw [runAcquires]
  have h1 : onceDoCounted { done := false, setupCount := 0 }
      = { done := true, setupCount := 1 } := rfl
  rw [h1, runAcquires_of_done m { done := true, setupCount := 1 } rfl]

theorem setup_executes_once_witness :
    (runAcquires 2 { done := false, setupCount := 0 }).setupCount = 1 :=
  setup_executes_once 2 (by decide)

/-- C9: `setupClient` returns a nil error on every configuration, so the
fatal-setup branch of the once body is unreachable: after initialization
`initError` is `none`, the instance is published with the constructed
transport, and the background task is launched. -/
theorem setupClient_never_fails (config : Config) :
    (∃ clt, setupClient config = Except.ok clt)
    ∧ (onceDo (setupClient config) initialSharedState).initError = none
    ∧ (onceDo (setupClient config) initialSharedState).inst
        = some { c := some (grpcNewClient config), rs := [] }
    ∧ (onceDo (setupClient config) initialSharedState).bgLaunched = true :=
  ⟨⟨grpcNewClient config, rfl⟩, rfl, rfl, rfl⟩

end GrpcClient

namespace Lambda

theorem GetCustomers_snd (env : Env) : (GetCustomers env).2 = none := by
  unfold GetCustomers
  repeat' split
  all_goals rfl

theorem GetCustomer_snd (env : Env) (request : APIGatewayProxyRequest) :
    (GetCustomer env request).2 = none := by
  unfold GetCustomer
  repeat' split
  all_goals rfl

theorem CreateCustomer_snd (env : Env) (request : APIGatewayProxyRequest) :
    (CreateCustomer env request).2 = none := by
  unfold CreateCustomer
  repeat' split
  all_goals rfl

theorem UpdateCustomer_snd (env : Env) (request : APIGatewayProxyRequest) :
    (UpdateCustomer env request).2 = none := by
  unfold UpdateCustomer
  repeat' split
  all_goals rfl

theorem DeleteCustomer_snd (env : Env) (request : APIGatewayProxyRequest) :
    (DeleteCustomer env request).2 = none := by
  unfold DeleteCustomer
  repeat' split
  all_goals rfl

theorem GetKPI_snd (env : Env) : (GetKPI env).2 = none := by
  unfold GetKPI
  repeat' split
  all_goals rfl

theorem HandleRequest_snd (env : Env) (request : APIGatewayProxyRequest) :
    (HandleRequest env request).2 = none := by
  unfold HandleRequest
  repeat' split
  · exact GetCustomers_snd env
  · exact GetCustomer_snd env request
  · exact CreateCustomer_snd env request
  · exact UpdateCustomer_snd env request
  · exact DeleteCustomer_snd env request
  · exact GetKPI_snd env
  · rfl

/-- C10: whatever the collaborator outcomes and the incoming event, the
dispatcher and every route handler return a nil Go error: unknown routes,
invalid ids, validation failures, use-case errors and marshalling errors
are all encoded in the response's status code and body only. -/
theorem handler_never_returns_error (env : Env) (request : APIGatewayProxyRequest) :
    (HandleRequest env request).2 = none
    ∧ (GetCustomers env).2 = none
    ∧ (GetCustomer env request).2 = none
    ∧ (CreateCustomer env request).2 = none
    ∧ (UpdateCustomer env request).2 = none
    ∧ (DeleteCustomer env request).2 = none
    ∧ (GetKPI env).2 = none :=
  ⟨HandleRequest_snd env request, GetCustomers_snd env, GetCustomer_snd env request,
    CreateCustomer_snd env request, UpdateCustomer_snd env request,
    DeleteCustomer_snd env request, GetKPI_snd env⟩

end Lambda
